import Mathlib

/-!
Shallow embedding of the OCR_EXTRACTOR pipeline
(src/utils/llm_client.py, src/utils/document_processor.py,
src/utils/pdf_processor.py, src/utils/output_formatter.py).

Python dictionaries holding JSON-like model output are embedded as the
inductive type `Json`; the dictionaries returned by
`OllamaClient.process_image` are embedded as `PyResponse`, a record of
optional fields, so that presence/absence of the `data` / `error` /
`raw_response` keys is observable.  Python exceptions that can escape a
function are embedded as `Except String`; filesystem writes are embedded
by recording the JSON value (or table entries) that the code writes.
-/

namespace OCRX

/-- JSON-like values: the payloads produced by `json.loads` and stored in
the Python result dictionaries. Objects keep their fields as ordered
association lists. -/
inductive Json where
  | null : Json
  | bool (b : Bool) : Json
  | num (n : Int) : Json
  | str (s : String) : Json
  | arr (items : List Json) : Json
  | obj (fields : List (String × Json)) : Json

/-- Python dict key lookup (`d[k]` / `k in d`), first binding wins. -/
def Json.lookup (key : String) : List (String × Json) → Option Json
  | [] => none
  | (k, v) :: rest => if k = key then some v else Json.lookup key rest

/-- The dictionary returned by `OllamaClient.process_image`
(src/utils/llm_client.py lines 98-122): `success` is always present, the
other keys only in some branches, hence `Option`. -/
structure PyResponse where
  success : Bool
  data : Option Json
  raw_response : Option String
  error : Option String

/-- Python `str.find(c)` on a character: index of first occurrence. -/
def pyFindAux (c : Char) : List Char → Nat → Option Nat
  | [], _ => none
  | x :: rest, i => if x = c then some i else pyFindAux c rest (i + 1)

/-- Python `text.find(c)` (as used with a present character). -/
def pyFind (c : Char) (cs : List Char) : Option Nat := pyFindAux c cs 0

/-- Python `text.rfind(c)`: index of last occurrence. -/
def pyRfind (c : Char) (cs : List Char) : Option Nat :=
  match pyFind c cs.reverse with
  | some i => some (cs.length - 1 - i)
  | none => none

/-- Embeds src/utils/llm_client.py lines 93-95: `text_content[json_start:json_end]`
where `json_start = text_content.find("{")` and
`json_end = text_content.rfind("}") + 1`. -/
def braceSubstring (text_content : String) : String :=
  let cs := text_content.toList
  let json_start := (pyFind '{' cs).getD 0
  let json_end := (pyRfind '}' cs).getD 0 + 1
  String.mk ((cs.drop json_start).take (json_end - json_start))

/-- Embedding of `OllamaClient.process_image` (src/utils/llm_client.py lines 54-122).
`backend` is the outcome of the code up to `result.get("response", "")`:
`Except.error e` when any exception is raised (encoding failure,
connection error, non-2xx via `raise_for_status`), `Except.ok text` for a
backend success with raw response `text`.  `parse` embeds `json.loads`
(`none` = `json.JSONDecodeError`). -/
def process_image (parse : String → Option Json) (backend : Except String String) :
    PyResponse :=
  match backend with
  | Except.error e =>
    { success := false, data := none, raw_response := none, error := some e }
  | Except.ok text_content =>
    if text_content.toList.contains '{' && text_content.toList.contains '}' then
      match parse (braceSubstring text_content) with
      | some parsed_data =>
        { success := true, data := some parsed_data,
          raw_response := some text_content, error := none }
      | none =>
        { success := true, data := some (Json.obj [("text", Json.str text_content)]),
          raw_response := some text_content, error := none }
    else
      { success := true, data := some (Json.obj [("text", Json.str text_content)]),
        raw_response := some text_content, error := none }

/-- A concrete stand-in for `json.loads` used by witnesses: parses only the
empty object. -/
def trivialParse : String → Option Json :=
  fun s => if s = "{}" then some (Json.obj []) else none

/-- The three prompt kinds of src/config.py `PROMPTS`, as dispatched by
`analyze_document_type` / `extract_text` / `extract_table`. -/
inductive PromptType where
  | document_analysis : PromptType
  | text_extraction : PromptType
  | table_extraction : PromptType
deriving DecidableEq

/-- Python `str.lower()` (per-character, as relevant here). -/
def pyLower (s : String) : String := String.mk (s.toList.map Char.toLower)

/-- Python substring test `needle in hay`. -/
def containsSub (needle : List Char) : List Char → Bool
  | [] => needle.isEmpty
  | c :: rest => needle.isPrefixOf (c :: rest) || containsSub needle rest

/-- Embeds src/utils/document_processor.py line 116:
`"table" in analysis.get("raw_response", "").lower()`. -/
def tableDetectedIn (analysis : PyResponse) : Bool :=
  containsSub "table".toList (pyLower (analysis.raw_response.getD "")).toList

/-- One entry of the `results` list built by `_process_pdf` /
`_process_docx` (document_processor.py lines 126-130): keys `page`,
`text_data`, `table_detected`. -/
structure PageEntry where
  page : Nat
  text_data : Json
  table_detected : Bool

/-- One entry of the `table_data` list (document_processor.py
lines 119-122): keys `page`, `data`. -/
structure TableEntry where
  page : Nat
  data : Json

/-- The mutable loop state of `_process_pdf` / `_process_docx`
(document_processor.py lines 104-106): `results`, `table_data`, and
`text_data = {"headers": [...], "content": [...]}`. -/
structure AggState where
  results : List PageEntry
  table_data : List TableEntry
  headers : List Json
  content : List Json

/-- Initial loop state (document_processor.py lines 104-106). -/
def emptyAgg : AggState := { results := [], table_data := [], headers := [], content := [] }

/-- Python `list.extend(v)` iterates `v`; iterating a JSON value succeeds
for arrays (the elements), strings (their characters) and dicts (their
keys), and raises `TypeError` otherwise. -/
def pyIter : Json → Option (List Json)
  | Json.arr items => some items
  | Json.str s => some (s.toList.map (fun c => Json.str (String.mk [c])))
  | Json.obj fields => some (fields.map (fun kv => Json.str kv.1))
  | _ => none

/-- Embeds document_processor.py lines 134-135: `if "headers" in text_result["data"]:
text_data["headers"].extend(...)`. `Except.error` is a raised `TypeError`. -/
def extendHeaders (st : AggState) (fields : List (String × Json)) :
    Except String AggState :=
  match Json.lookup "headers" fields with
  | some v =>
    match pyIter v with
    | some items => Except.ok { st with headers := st.headers ++ items }
    | none => Except.error "TypeError: extend"
  | none => Except.ok st

/-- Embeds document_processor.py lines 136-139: `if "content" in ...: extend`
`elif "text" in ...: append`. -/
def extendContent (st : AggState) (fields : List (String × Json)) :
    Except String AggState :=
  match Json.lookup "content" fields with
  | some v =>
    match pyIter v with
    | some items => Except.ok { st with content := st.content ++ items }
    | none => Except.error "TypeError: extend"
  | none =>
    match Json.lookup "text" fields with
    | some v => Except.ok { st with content := st.content ++ [v] }
    | none => Except.ok st

/-- Embeds document_processor.py lines 133-139: the text-data aggregation guarded
by `isinstance(text_result["data"], dict)`. -/
def aggregateTextData (st : AggState) (d : Json) : Except String AggState :=
  match d with
  | Json.obj fields => (extendHeaders st fields).bind (fun st2 => extendContent st2 fields)
  | _ => Except.ok st

/-- Embeds document_processor.py lines 124-139: `if text_result["success"]:` append
the results entry, then aggregate text data.  Accessing the missing `data`
key of a response raises `KeyError`. -/
def storeTextResult (text_result : PyResponse) (detected : Bool) (i : Nat)
    (st : AggState) : Except String AggState :=
  if text_result.success then
    match text_result.data with
    | none => Except.error "KeyError: data"
    | some d =>
      let st2 := { st with
        results := st.results ++ [{ page := i + 1, text_data := d, table_detected := detected }] }
      aggregateTextData st2 d
  else Except.ok st

/-- The body of the per-page loop of `_process_pdf` (document_processor.py
lines 108-139; `_process_docx` lines 241-269 is verbatim the same):
classification call, text call, conditional table call, then the
results/table/text-data updates.  The second component is the list of
Model Gateway calls issued for this page, in order. -/
def processOnePage (oracle : α → PromptType → PyResponse) (i : Nat) (img : α)
    (st : AggState) : Except String AggState × List PromptType :=
  let analysis := oracle img PromptType.document_analysis
  let text_result := oracle img PromptType.text_extraction
  let detected := tableDetectedIn analysis
  if detected then
    let table_result := oracle img PromptType.table_extraction
    let afterTable : Except String AggState :=
      if table_result.success then
        match table_result.data with
        | some d => Except.ok { st with table_data := st.table_data ++ [{ page := i + 1, data := d }] }
        | none => Except.error "KeyError: data"
      else Except.ok st
    (afterTable.bind (storeTextResult text_result detected i),
     [PromptType.document_analysis, PromptType.text_extraction, PromptType.table_extraction])
  else
    (storeTextResult text_result detected i st,
     [PromptType.document_analysis, PromptType.text_extraction])

/-- The full page loop `for i, img_path in enumerate(image_paths)` of
`_process_pdf` / `_process_docx`. -/
def processPagesLoop (oracle : α → PromptType → PyResponse) :
    List (Nat × α) → AggState → Except String AggState
  | [], st => Except.ok st
  | (i, img) :: rest, st =>
    match (processOnePage oracle i img st).1 with
    | Except.error e => Except.error e
    | Except.ok st2 => processPagesLoop oracle rest st2

/-- The dictionary returned by `process_document` and its helpers
(document_processor.py lines 60-63, 98-101, 155-163, 202-208, 229-233,
285-293).  Keys absent from a given return dictionary are `none`; the
JSON value written to the text output file is recorded in `text_json`,
and the table entries handed to `format_table_output` in `table_json`
(filesystem paths themselves are not modelled). -/
structure DocumentResult where
  success : Bool
  error : Option String
  document_type : Option String
  pages_processed : Option Nat
  results : Option (List PageEntry)
  text_json : Option Json
  table_json : Option (List TableEntry)
  analysis_data : Option Json

/-- The failure dictionary `{"success": False, "error": msg}`. -/
def failureResult (msg : String) : DocumentResult :=
  { success := false, error := some msg, document_type := none,
    pages_processed := none, results := none, text_json := none,
    table_json := none, analysis_data := none }

/-- The text JSON written by `_process_pdf` / `_process_docx`
(document_processor.py lines 146-147, 276-277): `json.dump(text_data)`
where `text_data = {"headers": [...], "content": [...]}`. -/
def pdfTextJson (st : AggState) : Json :=
  Json.obj [("headers", Json.arr st.headers), ("content", Json.arr st.content)]

/-- Embedding of `PDFProcessor.pdf_to_images` (src/utils/pdf_processor.py lines 31-67):
`conv` is the outcome of `pdf2image.convert_from_path` (`Except.error` =
raised exception), and every raised exception is caught and turned into
the empty list. -/
def pdf_to_images (conv : Except String (List α)) : List α :=
  match conv with
  | Except.ok images => images
  | Except.error _ => []

/-- Embeds pdf_processor.py line 103: `[paragraphs[i:i+10] for i in
range(0, len(paragraphs), 10)]`. -/
def chunks10 (paragraphs : List String) : List (List String) :=
  (List.range ((paragraphs.length + 9) / 10)).map
    (fun k => (paragraphs.drop (10 * k)).take 10)

/-- Embedding of `PDFProcessor.docx_to_images` (pdf_processor.py lines 69-121):
`readResult` is the outcome of `docx.Document(docx_path)` plus the
paragraph-text comprehension (`Except.error` = raised exception, caught
and turned into `[]`); one placeholder page image `page_{i+1:03d}.png` is
written per 10-paragraph chunk, and the image is identified here by its
1-based page number. -/
def docx_to_images (readResult : Except String (List String)) : List Nat :=
  match readResult with
  | Except.error _ => []
  | Except.ok paragraphs => (chunks10 paragraphs).enum.map (fun c => c.1 + 1)

/-- Embedding of `DocumentProcessor._process_pdf` (document_processor.py lines 78-163),
with the rasterization outcome `conv` passed in and the Model Gateway
embedded as `oracle` (per page image, per prompt kind). -/
def processPdf (oracle : α → PromptType → PyResponse)
    (conv : Except String (List α)) : Except String DocumentResult :=
  let image_paths := pdf_to_images conv
  if image_paths.isEmpty then
    Except.ok (failureResult "Failed to convert PDF to images")
  else
    match processPagesLoop oracle image_paths.enum emptyAgg with
    | Except.error e => Except.error e
    | Except.ok st =>
      Except.ok
        { success := true, error := none, document_type := some "pdf",
          pages_processed := some image_paths.length, results := some st.results,
          text_json := some (pdfTextJson st),
          table_json := if st.table_data.isEmpty then none else some st.table_data,
          analysis_data := none }

/-- Embedding of `DocumentProcessor._process_docx` (document_processor.py lines
210-293): identical loop, DOCX rasterization and error string. -/
def processDocx (oracle : Nat → PromptType → PyResponse)
    (readResult : Except String (List String)) : Except String DocumentResult :=
  let image_paths := docx_to_images readResult
  if image_paths.isEmpty then
    Except.ok (failureResult "Failed to convert DOCX to images")
  else
    match processPagesLoop oracle image_paths.enum emptyAgg with
    | Except.error e => Except.error e
    | Except.ok st =>
      Except.ok
        { success := true, error := none, document_type := some "docx",
          pages_processed := some image_paths.length, results := some st.results,
          text_json := some (pdfTextJson st),
          table_json := if st.table_data.isEmpty then none else some st.table_data,
          analysis_data := none }

/-- Embedding of `DocumentProcessor._process_image` (document_processor.py lines
165-208).  Note the unguarded `text_result["data"]` at line 200: when the
text-extraction response has no `data` key this raises `KeyError`, which
is embedded as `Except.error`.  `text_json` records the value passed to
`json.dump` at lines 199-200 (the raw payload, unnormalized). -/
def processImageDoc (oracle : PromptType → PyResponse) :
    Except String DocumentResult :=
  let analysis := oracle PromptType.document_analysis
  let text_result := oracle PromptType.text_extraction
  let tableStep : Except String (Option (List TableEntry)) :=
    if tableDetectedIn analysis then
      let table_result := oracle PromptType.table_extraction
      if table_result.success then
        match table_result.data with
        | some d => Except.ok (some [{ page := 1, data := d }])
        | none => Except.error "KeyError: data"
      else Except.ok none
    else Except.ok none
  match tableStep with
  | Except.error e => Except.error e
  | Except.ok tables =>
    match text_result.data with
    | none => Except.error "KeyError: data"
    | some d =>
      Except.ok
        { success := true, error := none, document_type := some "image",
          pages_processed := none, results := none, text_json := some d,
          table_json := tables,
          analysis_data := some (analysis.data.getD (Json.obj [])) }

/-- Embeds src/config.py `ALLOWED_EXTENSIONS` (its keys). -/
def ALLOWED_EXTENSIONS : List String := ["pdf", "jpg", "jpeg", "png", "tiff", "docx"]

/-- Embedding of `DocumentProcessor.process_document` (document_processor.py lines
46-76): extension dispatch.  `oracle` serves all pages (a single-page
image uses page image 0); `pdfConv` / `docxRead` are the rasterization
outcomes consumed by the respective branch. -/
def process_document (ext : String) (oracle : Nat → PromptType → PyResponse)
    (pdfConv : Except String (List Nat)) (docxRead : Except String (List String)) :
    Except String DocumentResult :=
  let file_extension := ext
  if file_extension ∉ ALLOWED_EXTENSIONS then
    Except.ok (failureResult ("Unsupported file type: " ++ file_extension))
  else if file_extension = "pdf" then
    processPdf oracle pdfConv
  else if file_extension ∈ ["jpg", "jpeg", "png", "tiff"] then
    processImageDoc (oracle 0)
  else if file_extension = "docx" then
    processDocx oracle docxRead
  else
    Except.ok (failureResult ("Unsupported file type: " ++ file_extension))

/-- Embedding of `format_text_output` (src/utils/output_formatter.py lines 13-52): the
JSON value it writes: starts from `{"headers": [], "content": []}` and
overrides from the input dict (`headers` if present; `content` if
present, else a singleton of `text` if present); a non-dict input becomes
the single content element. -/
def format_text_output (text_data : Json) : Json :=
  match text_data with
  | Json.obj fields =>
    let headers := (Json.lookup "headers" fields).getD (Json.arr [])
    let content :=
      match Json.lookup "content" fields with
      | some v => v
      | none =>
        match Json.lookup "text" fields with
        | some t => Json.arr [t]
        | none => Json.arr []
    Json.obj [("headers", headers), ("content", content)]
  | other => Json.obj [("headers", Json.arr []), ("content", Json.arr [other])]

/-- Key lookup on a materialized JSON object (the parsed-back mapping). -/
def headersField : Json → Option Json
  | Json.obj fields => Json.lookup "headers" fields
  | _ => none

/-- Key lookup on a materialized JSON object (the parsed-back mapping). -/
def contentField : Json → Option Json
  | Json.obj fields => Json.lookup "content" fields
  | _ => none

/-- Which `pd.DataFrame` construction `format_table_output` selects for one
content of one table (output_formatter.py lines 82-104).  `errorMarker msg`
stands for `pd.DataFrame({"Error": [msg]})`, a one-column, one-row
(one-cell) sheet. -/
inductive DfSpec where
  | fromList (rows : List Json) : DfSpec
  | fromRows (v : Json) : DfSpec
  | fromData (v : Json) : DfSpec
  | fromHeadersValues (values headers : Json) : DfSpec
  | fromDict (fields : List (String × Json)) : DfSpec
  | errorMarker (msg : String) : DfSpec

/-- The shape dispatch of `format_table_output` (output_formatter.py lines
82-104) for one `table_content` value.  `from_dict_ok` embeds whether
`pd.DataFrame.from_dict(table_content)` succeeds (its exception is caught
at lines 99-101). -/
def normalizeTableContent (from_dict_ok : List (String × Json) → Bool)
    (table_content : Json) : DfSpec :=
  match table_content with
  | Json.arr rows => DfSpec.fromList rows
  | Json.obj fields =>
    match Json.lookup "rows" fields with
    | some v => DfSpec.fromRows v
    | none =>
      match Json.lookup "data" fields with
      | some v => DfSpec.fromData v
      | none =>
        match Json.lookup "headers" fields, Json.lookup "values" fields with
        | some h, some v => DfSpec.fromHeadersValues v h
        | _, _ =>
          if from_dict_ok fields then DfSpec.fromDict fields
          else DfSpec.errorMarker "Could not parse table data"
  | _ => DfSpec.errorMarker "Unexpected table data format"

/-- What `extendHeaders` appends to the running headers: the iterated
`headers` value when the key is present, nothing otherwise. -/
def headersAppended (fields : List (String × Json)) : List Json :=
  match Json.lookup "headers" fields with
  | some v => (pyIter v).getD []
  | none => []

/-- What `extendContent` appends to the running content: the iterated
`content` value when that key is present; otherwise the singleton `text`
value when that key is present; otherwise nothing. -/
def contentAppended (fields : List (String × Json)) : List Json :=
  match Json.lookup "content" fields with
  | some v => (pyIter v).getD []
  | none =>
    match Json.lookup "text" fields with
    | some t => [t]
    | none => []

/-- A successful text-style Model Gateway response with raw text `t` and
degraded payload `{"text": t}`, as `process_image` produces for brace-free
output. -/
def okTextResponse (t : String) : PyResponse :=
  { success := true, data := some (Json.obj [("text", Json.str t)]),
    raw_response := some t, error := none }

/-- Oracle for a 2-page document whose first page has a failing text-extraction
sub-call (a transport error) while everything else succeeds with
plain text. -/
def oracleC1 : Nat → PromptType → PyResponse :=
  fun img p =>
    match img, p with
    | 0, PromptType.text_extraction =>
      { success := false, data := none, raw_response := none,
        error := some "connection refused" }
    | _, _ => okTextResponse "plain text page"

/-- Oracle for a single-page image whose text-extraction call fails while
classification succeeds with plain text. -/
def oracleC2 : Nat → PromptType → PyResponse :=
  fun _ p =>
    match p with
    | PromptType.text_extraction =>
      { success := false, data := none, raw_response := none,
        error := some "model backend unreachable" }
    | _ => okTextResponse "plain text page"

/-- Oracle whose every call succeeds with the degraded plain-text payload
(no table indicator in the classification raw text). -/
def oracleC7 : PromptType → PyResponse := fun _ => okTextResponse "plain text page"

/-- Oracle whose classification response carries no `raw_response` key at
all (the failure shape of `process_image`). -/
def oracleNoRaw : Nat → PromptType → PyResponse :=
  fun _ _ =>
    { success := false, data := none, raw_response := none,
      error := some "backend failure" }

/-- Oracle whose classification raw text mentions a table, so the
table-extraction call is triggered. -/
def oracleTable : Nat → PromptType → PyResponse := fun _ _ => okTextResponse "a Table of data"

/-- The single `results` entry the `oracleC1` run produces (for its second
page only). -/
def pageTwoEntry : PageEntry :=
  { page := 2, text_data := Json.obj [("text", Json.str "plain text page")],
    table_detected := false }

/-- The final loop state of the `oracleC1` run over pages `[0, 1]`. -/
def stC1 : AggState :=
  { results := [pageTwoEntry], table_data := [], headers := [],
    content := [Json.str "plain text page"] }

/-! ## Theorems -/

/-- Claim C3: for every backend-successful Model Gateway call, when the raw
response text contains both braces the first-to-last-brace substring is
parsed and the response records its parse (success stays `true` in every
case); when parsing fails, or no brace pair exists, the payload degrades to
the raw text wrapped as `{"text": rawText}` — never a raised error (the
embedding is a total function on backend successes). -/
theorem C3_brace_extraction (parse : String → Option Json) (tc : String) :
    (process_image parse (Except.ok tc)).success = true
    ∧ (process_image parse (Except.ok tc)).raw_response = some tc
    ∧ ((tc.toList.contains '{' && tc.toList.contains '}') = true →
        (process_image parse (Except.ok tc)).data
          = some ((parse (braceSubstring tc)).getD (Json.obj [("text", Json.str tc)])))
    ∧ ((tc.toList.contains '{' && tc.toList.contains '}') = false →
        (process_image parse (Except.ok tc)).data
          = some (Json.obj [("text", Json.str tc)])) := by
  refine ⟨?_, ?_, ?_, ?_⟩
  · simp only [process_image]
    split
    · split <;> rfl
    · rfl
  · simp only [process_image]
    split
    · split <;> rfl
    · rfl
  · intro h
    simp only [process_image]
    rw [if_pos h]
    cases hp : parse (braceSubstring tc) <;> rfl
  · intro h
    simp only [process_image]
    rw [if_neg (by rw [h]; exact Bool.false_ne_true)]

/-- Witness for C3: a raw response `"{}"` has a brace pair and the parsed
empty object is returned as payload; a brace-free raw response `"hi"`
degrades to `{"text": "hi"}`. -/
theorem C3_brace_extraction_witness :
    (process_image trivialParse (Except.ok "{}")).data = some (Json.obj [])
    ∧ (process_image trivialParse (Except.ok "hi")).data
        = some (Json.obj [("text", Json.str "hi")]) := by
  constructor
  · have h := (C3_brace_extraction trivialParse "{}").2.2.1 (by decide)
    rw [h]; rfl
  · exact (C3_brace_extraction trivialParse "hi").2.2.2 (by decide)

/-- Claim C8: every dictionary returned by `process_image` has a `data` key
present exactly when `success` is true and an `error` key present exactly
when `success` is false; on a transport/backend error the response has
`success=false`, the error message, and no payload. -/
theorem C8_response_invariant (parse : String → Option Json)
    (backend : Except String String) :
    ((process_image parse backend).data.isSome = (process_image parse backend).success)
    ∧ ((process_image parse backend).error.isSome = !(process_image parse backend).success)
    ∧ (∀ e, backend = Except.error e →
        (process_image parse backend).success = false
        ∧ (process_image parse backend).error = some e
        ∧ (process_image parse backend).data = none) := by
  cases backend with
  | error e => exact ⟨rfl, rfl, fun e2 h => by cases h; exact ⟨rfl, rfl, rfl⟩⟩
  | ok tc =>
    refine ⟨?_, ?_, fun e2 h => Except.noConfusion h⟩ <;>
      · simp only [process_image]
        split
        · split <;> rfl
        · rfl

/-- Witness for C8: a concrete transport error yields `success=false`, the
error message, and no payload. -/
theorem C8_response_invariant_witness :
    (process_image trivialParse (Except.error "connection refused")).success = false
    ∧ (process_image trivialParse (Except.error "connection refused")).error
        = some "connection refused"
    ∧ (process_image trivialParse (Except.error "connection refused")).data = none :=
  (C8_response_invariant trivialParse (Except.error "connection refused")).2.2
    "connection refused" rfl

/-- Claim C6: table normalization tries the payload shapes in the fixed
priority order — sequence of rows; mapping with `rows`; mapping with
`data`; mapping with `headers` and `values`; any other mapping directly —
with the first match winning, so a mapping with both `rows` and `data` is
normalized via `rows`; and total failure of every shape (including a
failing direct dict conversion, and a non-sequence non-mapping payload)
yields the one-cell error-marker sheet rather than a raised error. -/
theorem C6_normalization_order (from_dict_ok : List (String × Json) → Bool)
    (fields : List (String × Json)) :
    (∀ rows, normalizeTableContent from_dict_ok (Json.arr rows) = DfSpec.fromList rows)
    ∧ (∀ r, Json.lookup "rows" fields = some r →
        normalizeTableContent from_dict_ok (Json.obj fields) = DfSpec.fromRows r)
    ∧ (∀ d, Json.lookup "rows" fields = none → Json.lookup "data" fields = some d →
        normalizeTableContent from_dict_ok (Json.obj fields) = DfSpec.fromData d)
    ∧ (∀ h v, Json.lookup "rows" fields = none → Json.lookup "data" fields = none →
        Json.lookup "headers" fields = some h → Json.lookup "values" fields = some v →
        normalizeTableContent from_dict_ok (Json.obj fields)
          = DfSpec.fromHeadersValues v h)
    ∧ (Json.lookup "rows" fields = none → Json.lookup "data" fields = none →
        (Json.lookup "headers" fields = none ∨ Json.lookup "values" fields = none) →
        from_dict_ok fields = true →
        normalizeTableContent from_dict_ok (Json.obj fields) = DfSpec.fromDict fields)
    ∧ (Json.lookup "rows" fields = none → Json.lookup "data" fields = none →
        (Json.lookup "headers" fields = none ∨ Json.lookup "values" fields = none) →
        from_dict_ok fields = false →
        normalizeTableContent from_dict_ok (Json.obj fields)
          = DfSpec.errorMarker "Could not parse table data")
    ∧ (∀ s, normalizeTableContent from_dict_ok (Json.str s)
          = DfSpec.errorMarker "Unexpected table data format") := by
  refine ⟨fun rows => rfl, ?_, ?_, ?_, ?_, ?_, fun s => rfl⟩
  · intro r hr
    simp [normalizeTableContent, hr]
  · intro d h1 h2
    simp [normalizeTableContent, h1, h2]
  · intro h v h1 h2 h3 h4
    simp [normalizeTableContent, h1, h2, h3, h4]
  · intro h1 h2 h3 h4
    rcases h3 with h3 | h3 <;> simp [normalizeTableContent, h1, h2, h3, h4]
  · intro h1 h2 h3 h4
    rcases h3 with h3 | h3 <;> simp [normalizeTableContent, h1, h2, h3, h4]

/-- Witness for C6: a payload with both `rows` and `data` is normalized via
the `rows` field; an empty mapping whose direct dict conversion fails
yields the error-marker sheet. -/
theorem C6_normalization_order_witness :
    normalizeTableContent (fun _ => false)
        (Json.obj [("rows", Json.arr [Json.num 1]), ("data", Json.arr [Json.num 2])])
      = DfSpec.fromRows (Json.arr [Json.num 1])
    ∧ normalizeTableContent (fun _ => false) (Json.obj [])
      = DfSpec.errorMarker "Could not parse table data" :=
  ⟨(C6_normalization_order (fun _ => false)
      [("rows", Json.arr [Json.num 1]), ("data", Json.arr [Json.num 2])]).2.1
      (Json.arr [Json.num 1]) rfl,
   (C6_normalization_order (fun _ => false) []).2.2.2.2.2.1 rfl rfl (Or.inl rfl) rfl⟩

/-- Claim C9: when PDF-to-image conversion raises, `pdf_to_images` returns
the empty sequence rather than propagating the exception, and `_process_pdf`
maps any empty page sequence to the failure dictionary
`{"success": False, "error": "Failed to convert PDF to images"}` without
running any page processing. -/
theorem C9_raster_failure (oracle : Nat → PromptType → PyResponse)
    (conv : Except String (List Nat)) :
    (∀ e, conv = Except.error e → pdf_to_images conv = ([] : List Nat))
    ∧ (pdf_to_images conv = [] →
        processPdf oracle conv
          = Except.ok (failureResult "Failed to convert PDF to images")) := by
  constructor
  · intro e h
    rw [h]
    rfl
  · intro h
    simp [processPdf, h]

/-- Witness for C9: a concrete raised conversion error yields the empty
page list and the failure result. -/
theorem C9_raster_failure_witness :
    pdf_to_images (Except.error "corrupt PDF") = ([] : List Nat)
    ∧ processPdf oracleNoRaw (Except.error "corrupt PDF")
        = Except.ok (failureResult "Failed to convert PDF to images") :=
  ⟨(C9_raster_failure oracleNoRaw (Except.error "corrupt PDF")).1 "corrupt PDF" rfl,
   (C9_raster_failure oracleNoRaw (Except.error "corrupt PDF")).2
     ((C9_raster_failure oracleNoRaw (Except.error "corrupt PDF")).1 "corrupt PDF" rfl)⟩

/-- Claim C10: a readable DOCX with zero paragraphs yields zero
10-paragraph chunks, hence zero page images, and `process_document`
then returns the failure dictionary
`{"success": False, "error": "Failed to convert DOCX to images"}` even
though the document itself was opened successfully. -/
theorem C10_empty_docx (oracle : Nat → PromptType → PyResponse)
    (pdfConv : Except String (List Nat)) :
    chunks10 [] = []
    ∧ docx_to_images (Except.ok []) = []
    ∧ processDocx oracle (Except.ok [])
        = Except.ok (failureResult "Failed to convert DOCX to images")
    ∧ process_document "docx" oracle pdfConv (Except.ok [])
        = Except.ok (failureResult "Failed to convert DOCX to images") :=
  ⟨rfl, rfl, rfl, rfl⟩

/-- Claim C5: for every page, the table-extraction Model Gateway call is
issued if and only if the substring `"table"` occurs in the lowercased
classification raw response text; a classification response whose raw
text is absent or empty is treated as "no table": `tableDetected` is
false and no table-extraction call is issued for that page. -/
theorem C5_table_gating (oracle : α → PromptType → PyResponse) (i : Nat) (img : α)
    (st : AggState) :
    (PromptType.table_extraction ∈ (processOnePage oracle i img st).2
      ↔ tableDetectedIn (oracle img PromptType.document_analysis) = true)
    ∧ ((oracle img PromptType.document_analysis).raw_response.getD "" = "" →
        tableDetectedIn (oracle img PromptType.document_analysis) = false
        ∧ PromptType.table_extraction ∉ (processOnePage oracle i img st).2) := by
  have hempty : (oracle img PromptType.document_analysis).raw_response.getD "" = "" →
      tableDetectedIn (oracle img PromptType.document_analysis) = false := by
    intro h
    unfold tableDetectedIn
    rw [h]
    rfl
  have hmem : PromptType.table_extraction ∈ (processOnePage oracle i img st).2
      ↔ tableDetectedIn (oracle img PromptType.document_analysis) = true := by
    simp only [processOnePage]
    cases hd : tableDetectedIn (oracle img PromptType.document_analysis) with
    | true => simp [hd]
    | false => simp [hd]
  refine ⟨hmem, fun h => ⟨hempty h, fun hc => ?_⟩⟩
  have hfalse := hmem.mp hc
  rw [hempty h] at hfalse
  exact Bool.false_ne_true hfalse

/-- Witness for C5: an oracle whose classification carries no raw text
triggers no table call, while one whose raw text mentions "Table" does. -/
theorem C5_table_gating_witness :
    (tableDetectedIn (oracleNoRaw 0 PromptType.document_analysis) = false
      ∧ PromptType.table_extraction ∉ (processOnePage oracleNoRaw 0 0 emptyAgg).2)
    ∧ PromptType.table_extraction ∈ (processOnePage oracleTable 0 0 emptyAgg).2 :=
  ⟨(C5_table_gating oracleNoRaw 0 0 emptyAgg).2 rfl,
   (C5_table_gating oracleTable 0 0 emptyAgg).1.mpr rfl⟩

lemma extendHeaders_ok_eq (st : AggState) (fields : List (String × Json)) (st2 : AggState)
    (h : extendHeaders st fields = Except.ok st2) :
    st2 = { st with headers := st.headers ++ headersAppended fields } := by
  rcases hl : Json.lookup "headers" fields with _ | v
  · simp only [extendHeaders, hl] at h
    injection h with h
    subst h
    simp [headersAppended, hl]
  · rcases hi : pyIter v with _ | items
    · simp only [extendHeaders, hl, hi] at h
      exact Except.noConfusion h
    · simp only [extendHeaders, hl, hi] at h
      injection h with h
      subst h
      simp [headersAppended, hl, hi]

lemma extendContent_ok_eq (st : AggState) (fields : List (String × Json)) (st2 : AggState)
    (h : extendContent st fields = Except.ok st2) :
    st2 = { st with content := st.content ++ contentAppended fields } := by
  rcases hl : Json.lookup "content" fields with _ | v
  · rcases ht : Json.lookup "text" fields with _ | t
    · simp only [extendContent, hl, ht] at h
      injection h with h
      subst h
      simp [contentAppended, hl, ht]
    · simp only [extendContent, hl, ht] at h
      injection h with h
      subst h
      simp [contentAppended, hl, ht]
  · rcases hi : pyIter v with _ | items
    · simp only [extendContent, hl, hi] at h
      exact Except.noConfusion h
    · simp only [extendContent, hl, hi] at h
      injection h with h
      subst h
      simp [contentAppended, hl, hi]

lemma aggregateTextData_obj_ok (st : AggState) (fields : List (String × Json))
    (st2 : AggState) (h : aggregateTextData st (Json.obj fields) = Except.ok st2) :
    st2 = { st with headers := st.headers ++ headersAppended fields,
                    content := st.content ++ contentAppended fields } := by
  simp only [aggregateTextData] at h
  rcases hh : extendHeaders st fields with e | stH
  · rw [hh] at h
    cases h
  · rw [hh] at h
    simp only [Except.bind] at h
    have h1 := extendHeaders_ok_eq st fields stH hh
    have h2 := extendContent_ok_eq stH fields st2 h
    subst h1
    subst h2
    rfl

lemma aggregateTextData_ok_frame (st : AggState) (d : Json) (st2 : AggState)
    (h : aggregateTextData st d = Except.ok st2) :
    st2.results = st.results ∧ st2.table_data = st.table_data := by
  cases d with
  | obj fields =>
    have := aggregateTextData_obj_ok st fields st2 h
    subst this
    exact ⟨rfl, rfl⟩
  | null => cases h; exact ⟨rfl, rfl⟩
  | bool b => cases h; exact ⟨rfl, rfl⟩
  | num n => cases h; exact ⟨rfl, rfl⟩
  | str s => cases h; exact ⟨rfl, rfl⟩
  | arr items => cases h; exact ⟨rfl, rfl⟩

/-- Claim C4 counterexample: a successful text payload
`{"headers": ["h"], "text": "x"}` is a mapping in which `text` is NOT the
only field (it has 2 fields), yet the aggregation appends `"x"` to the
running content — refuting "appended only when text is the only field of
the payload"; the code appends `text` whenever `content` is absent. -/
theorem C4_counterexample :
    aggregateTextData emptyAgg
        (Json.obj [("headers", Json.arr [Json.str "h"]), ("text", Json.str "x")])
      = Except.ok
          { results := [], table_data := [],
            headers := [Json.str "h"], content := [Json.str "x"] }
    ∧ ([("headers", Json.arr [Json.str "h"]), ("text", Json.str "x")].length = 2) :=
  ⟨rfl, rfl⟩

/-- Claim C4 (amended): when folding a successful text payload that is a
mapping, the `headers` value (if present) is appended element-wise in
order to the running headers, and the running content is extended by the
`content` value (if present) element-wise in order, or else by the single
`text` value when a `text` field is present — regardless of which other
fields the payload has. -/
theorem C4_text_merge (st : AggState) (fields : List (String × Json)) (st2 : AggState)
    (h : aggregateTextData st (Json.obj fields) = Except.ok st2) :
    st2.headers = st.headers ++ headersAppended fields
    ∧ st2.content = st.content ++ contentAppended fields := by
  have := aggregateTextData_obj_ok st fields st2 h
  subst this
  exact ⟨rfl, rfl⟩

/-- Witness for C4 (amended): a payload with both `content` and `text`
extends the running content with the `content` elements (and ignores
`text`), and its `headers` list is appended. -/
theorem C4_text_merge_witness :
    (({ results := [], table_data := [], headers := [Json.str "h"],
        content := [Json.str "c"] } : AggState).headers
      = ([] : List Json) ++ headersAppended
          [("headers", Json.arr [Json.str "h"]), ("content", Json.arr [Json.str "c"]),
           ("text", Json.str "x")])
    ∧ (({ results := [], table_data := [], headers := [Json.str "h"],
          content := [Json.str "c"] } : AggState).content
        = ([] : List Json) ++ contentAppended
            [("headers", Json.arr [Json.str "h"]), ("content", Json.arr [Json.str "c"]),
             ("text", Json.str "x")]) :=
  C4_text_merge emptyAgg
    [("headers", Json.arr [Json.str "h"]), ("content", Json.arr [Json.str "c"]),
     ("text", Json.str "x")]
    { results := [], table_data := [], headers := [Json.str "h"],
      content := [Json.str "c"] } rfl

lemma storeTextResult_ok_results (text_result : PyResponse) (detected : Bool) (i : Nat)
    (st st2 : AggState) (h : storeTextResult text_result detected i st = Except.ok st2) :
    st2.results.map (fun e => e.page)
      = st.results.map (fun e => e.page)
        ++ (if text_result.success then [i + 1] else []) := by
  unfold storeTextResult at h
  cases hs : text_result.success with
  | false =>
    rw [hs] at h
    simp only [Bool.false_eq_true, if_false] at h ⊢
    injection h with h
    subst h
    simp
  | true =>
    rw [hs] at h
    simp only [if_true] at h ⊢
    rcases hd : text_result.data with _ | d
    · rw [hd] at h
      exact Except.noConfusion h
    · rw [hd] at h
      have := aggregateTextData_ok_frame _ _ _ h
      rw [this.1]
      simp

lemma processOnePage_ok_results (oracle : α → PromptType → PyResponse) (i : Nat)
    (img : α) (st st2 : AggState)
    (h : (processOnePage oracle i img st).1 = Except.ok st2) :
    st2.results.map (fun e => e.page)
      = st.results.map (fun e => e.page)
        ++ (if (oracle img PromptType.text_extraction).success then [i + 1] else []) := by
  simp only [processOnePage] at h
  cases hd : tableDetectedIn (oracle img PromptType.document_analysis) with
  | false =>
    rw [hd] at h
    simp only [Bool.false_eq_true, if_false] at h
    exact storeTextResult_ok_results _ _ _ _ _ h
  | true =>
    rw [hd] at h
    simp only [if_true] at h
    cases hts : (oracle img PromptType.table_extraction).success with
    | false =>
      rw [hts] at h
      simp only [Bool.false_eq_true, if_false, Except.bind] at h
      exact storeTextResult_ok_results _ _ _ _ _ h
    | true =>
      rw [hts] at h
      simp only [if_true] at h
      rcases htd : (oracle img PromptType.table_extraction).data with _ | d
      · rw [htd] at h
        exact Except.noConfusion h
      · rw [htd] at h
        simp only [Except.bind] at h
        have := storeTextResult_ok_results _ _ _ _ _ h
        simpa using this

/-- Claim C1 counterexample: a 2-page PDF whose first page has a failing
text-extraction sub-call (transport error) while every other call
succeeds.  Processing continues — the document result is a success with
`pages_processed = 2` — but the per-page `results` list contains a single
entry, for page 2 only: page 1 is omitted because its text-extraction
sub-call failed, and no entry carries any `success=false` marker,
refuting "no page is omitted from the list because one of its sub-calls
failed". -/
theorem C1_counterexample :
    (oracleC1 0 PromptType.text_extraction).success = false
    ∧ processPdf oracleC1 (Except.ok [0, 1])
        = Except.ok
            { success := true, error := none, document_type := some "pdf",
              pages_processed := some 2, results := some [pageTwoEntry],
              text_json := some (pdfTextJson stC1),
              table_json := none, analysis_data := none } :=
  ⟨rfl, rfl⟩

/-- Claim C1 (amended): for every document, processing continues across
pages regardless of per-page sub-call failures (a failed Model Gateway
call is an ordinary returned value), but the per-page `results` list of
the DocumentResult contains an entry exactly for the pages whose
text-extraction sub-call succeeded, in page order — a page whose
text-extraction sub-call failed is omitted, and entries carry no
per-sub-call success flag. -/
theorem C1_results_pages (oracle : α → PromptType → PyResponse)
    (pages : List (Nat × α)) (st st2 : AggState)
    (h : processPagesLoop oracle pages st = Except.ok st2) :
    st2.results.map (fun e => e.page)
      = st.results.map (fun e => e.page)
        ++ (pages.filter
              (fun p => (oracle p.2 PromptType.text_extraction).success)).map
            (fun p => p.1 + 1) := by
  induction pages generalizing st with
  | nil =>
    simp only [processPagesLoop] at h
    injection h with h
    subst h
    simp
  | cons p rest ih =>
    obtain ⟨i, img⟩ := p
    simp only [processPagesLoop] at h
    rcases hstep : (processOnePage oracle i img st).1 with e | stMid
    · rw [hstep] at h
      exact Except.noConfusion h
    · rw [hstep] at h
      have h1 := processOnePage_ok_results oracle i img st stMid hstep
      have h2 := ih stMid h
      rw [h2, h1, List.filter_cons]
      cases hs : (oracle img PromptType.text_extraction).success with
      | true => simp [hs]
      | false => simp [hs]

/-- Witness for C1 (amended): on the concrete 2-page failing oracle the
loop yields exactly one results entry, for page 2. -/
theorem C1_results_pages_witness :
    stC1.results.map (fun e => e.page)
      = (emptyAgg.results.map (fun e => e.page))
        ++ (([(0, 0), (1, 1)] : List (Nat × Nat)).filter
              (fun p => (oracleC1 p.2 PromptType.text_extraction).success)).map
            (fun p => p.1 + 1) :=
  C1_results_pages oracleC1 [(0, 0), (1, 1)] emptyAgg stC1 rfl

/-- Claim C2, evaluated at the failing input: for a single-page image
input whose text-extraction Model Gateway call returns `success=false`
(so the response dictionary has no `data` key), `_process_image` reads
`text_result["data"]` unguarded (document_processor.py line 200) and the
resulting `KeyError` escapes `process_document` — no result value is
returned, contradicting the claim (and the propagation policy the rest of
the code follows). -/
theorem C2_exception_escapes :
    (oracleC2 0 PromptType.text_extraction).success = false
    ∧ processImageDoc (oracleC2 0) = Except.error "KeyError: data"
    ∧ process_document "jpg" oracleC2 (Except.error "unused") (Except.error "unused")
        = Except.error "KeyError: data" :=
  ⟨rfl, rfl, rfl⟩

/-- Claim C7 counterexample: for a single-page image input whose text
payload is the degraded `{"text": ...}` mapping, `_process_image` dumps
that payload verbatim (document_processor.py lines 199-200, bypassing
`format_text_output`), so the materialized text JSON parses back to a
mapping with neither a `headers` nor a `content` key — refuting "for
every supported input (including single-page images) ... headers and
content are present as sequences". -/
theorem C7_counterexample :
    processImageDoc oracleC7
      = Except.ok
          { success := true, error := none, document_type := some "image",
            pages_processed := none, results := none,
            text_json := some (Json.obj [("text", Json.str "plain text page")]),
            table_json := none,
            analysis_data := some (Json.obj [("text", Json.str "plain text page")]) }
    ∧ headersField (Json.obj [("text", Json.str "plain text page")]) = none
    ∧ contentField (Json.obj [("text", Json.str "plain text page")]) = none :=
  ⟨rfl, rfl, rfl⟩

/-- Claim C7 (amended): the text JSON written by `format_text_output`
always contains both `headers` and `content`, normalizing a missing
`headers` (resp. a missing `content` with no `text` fallback) to the
empty sequence, and the PDF/DOCX aggregation path always writes both keys
as sequences; the single-page image path, however, writes the raw text
payload unnormalized, so `headers`/`content` may be absent there. -/
theorem C7_text_json_normalized (td : Json) (st : AggState) :
    (headersField (format_text_output td)).isSome = true
    ∧ (contentField (format_text_output td)).isSome = true
    ∧ (∀ fields, td = Json.obj fields → Json.lookup "headers" fields = none →
        headersField (format_text_output td) = some (Json.arr []))
    ∧ (∀ fields, td = Json.obj fields → Json.lookup "content" fields = none →
        Json.lookup "text" fields = none →
        contentField (format_text_output td) = some (Json.arr []))
    ∧ headersField (pdfTextJson st) = some (Json.arr st.headers)
    ∧ contentField (pdfTextJson st) = some (Json.arr st.content) := by
  refine ⟨?_, ?_, ?_, ?_, rfl, rfl⟩
  · cases td <;> rfl
  · cases td <;> rfl
  · intro fields hf hl
    subst hf
    simp [format_text_output, headersField, hl, Json.lookup]
  · intro fields hf hc ht
    subst hf
    simp [format_text_output, contentField, hc, ht, Json.lookup]

/-- Witness for C7 (amended): the empty mapping materializes to
`{"headers": [], "content": []}`. -/
theorem C7_text_json_normalized_witness :
    headersField (format_text_output (Json.obj [])) = some (Json.arr [])
    ∧ contentField (format_text_output (Json.obj [])) = some (Json.arr []) :=
  ⟨(C7_text_json_normalized (Json.obj []) emptyAgg).2.2.1 [] rfl rfl,
   (C7_text_json_normalized (Json.obj []) emptyAgg).2.2.2.1 [] rfl rfl rfl⟩

end OCRX
